import Mathlib

/-!
Verification of the compile-time bounds-checking header of an image-buffer
library (`src/debug.hpp`).  The header defines two macros gated by a
compile-time constant `DEBUG` (shipped as `0`):

  - `check(msg, x, n, r)`: if `x < 0 || x >= n`, print one diagnostic line
    and early-return `r` from the enclosing function;
  - `check_img_ptr(msg, p, r, img)`: if `p < img.base || p > img.base +
    (img.ni-1)*img.si + (img.nj-1)*img.sj`, print one diagnostic line and
    early-return `r`.

When `DEBUG` is `0` both macros expand to the empty statement `;`.

The shallow embedding models each macro invocation as a pure function from
its inputs to a `CheckOutcome`: the list of diagnostic lines it prints
(empty or a singleton) and an `Option` result, where `some r` means the
enclosing operation early-returns the sentinel `r` and `none` means control
falls through.  Machine `int`s and pointer addresses are modelled as `Int`
(the macros only compare and take linear combinations of them).
-/

/-- Outcome of one macro invocation: the diagnostic lines printed, and
`some r` when the macro early-returns the sentinel `r` from the enclosing
function (`none` when control continues past the check). -/
structure CheckOutcome (α : Type) where
  diagnostics : List String
  result : Option α
deriving DecidableEq

/-- The strided 2D buffer descriptor read by `check_img_ptr`: base address
of element `[0,0]`, extents `ni`, `nj` and strides `si`, `sj` (addresses
modelled as integers). -/
structure Img where
  base : Int
  ni : Int
  nj : Int
  si : Int
  sj : Int
deriving DecidableEq

/-- Address of the last valid element as computed inline by the
`check_img_ptr` macro: `img.base + (img.ni - 1) * img.si + (img.nj - 1) * img.sj`. -/
def lastAddr (img : Img) : Int :=
  img.base + (img.ni - 1) * img.si + (img.nj - 1) * img.sj

/-- The `check` macro with `DEBUG` nonzero:
`if (x < 0 || x >= n) { printf(msg "%d out of bound (%d)\n", x, n); return r; }`. -/
def check {α : Type} (msg : String) (x n : Int) (r : α) : CheckOutcome α :=
  if x < 0 ∨ x ≥ n then
    { diagnostics := [msg ++ toString x ++ " out of bound (" ++ toString n ++ ")"],
      result := some r }
  else
    { diagnostics := [], result := none }

/-- The `check_img_ptr` macro with `DEBUG` nonzero:
`if (p < img.base || p > (img.base + (img.ni-1)*img.si + (img.nj-1)*img.sj))`
then print `msg "%p out of bound (%p,%dx%d, %dx%d\n"` and return `r`. -/
def check_img_ptr {α : Type} (msg : String) (p : Int) (r : α) (img : Img) :
    CheckOutcome α :=
  if p < img.base ∨ p > lastAddr img then
    { diagnostics := [msg ++ toString p ++ " out of bound (" ++ toString img.base ++ ","
        ++ toString img.ni ++ "x" ++ toString img.si ++ ", "
        ++ toString img.nj ++ "x" ++ toString img.sj],
      result := some r }
  else
    { diagnostics := [], result := none }

/-- The `check` macro with `DEBUG` zero: it expands to the empty statement `;`,
so no argument is evaluated, nothing is printed and control always continues. -/
def check_disabled {α : Type} (_msg : String) (_x _n : Int) (_r : α) : CheckOutcome α :=
  { diagnostics := [], result := none }

/-- The `check_img_ptr` macro with `DEBUG` zero: it expands to the empty
statement `;`. -/
def check_img_ptr_disabled {α : Type} (_msg : String) (_p : Int) (_r : α)
    (_img : Img) : CheckOutcome α :=
  { diagnostics := [], result := none }

/-- The compile-time switch, `#define DEBUG 0` in the shipped header. -/
def DEBUG : Nat := 0

/-- The preprocessor dispatch `#if DEBUG ... #else ... #endif` for `check`:
a nonzero switch selects the validating expansion, zero selects the no-op. -/
def check_dispatch {α : Type} (debug : Nat) (msg : String) (x n : Int) (r : α) :
    CheckOutcome α :=
  if debug ≠ 0 then check msg x n r else check_disabled msg x n r

/-- The preprocessor dispatch `#if DEBUG ... #else ... #endif` for
`check_img_ptr`. -/
def check_img_ptr_dispatch {α : Type} (debug : Nat) (msg : String) (p : Int)
    (r : α) (img : Img) : CheckOutcome α :=
  if debug ≠ 0 then check_img_ptr msg p r img else check_img_ptr_disabled msg p r img

/-- Sequencing model for repeated invocations: an invocation appends its
diagnostic lines to the output stream `log` and yields its control-flow
result.  The macros keep no other state between invocations. -/
def invoke {α : Type} (log : List String) (c : CheckOutcome α) :
    List String × Option α :=
  (log ++ c.diagnostics, c.result)

/-- Claim C1: with the switch enabled, whenever `x < 0` or `x ≥ n` the Index
Bounds Check emits exactly one diagnostic line — the caller-supplied label
followed by `x`, the text `out of bound`, and `n` — and the enclosing
operation terminates immediately with the supplied sentinel. -/
theorem bounds_check_violation {α : Type} (msg : String) (x n : Int) (r : α)
    (h : x < 0 ∨ x ≥ n) :
    check msg x n r =
      { diagnostics := [msg ++ toString x ++ " out of bound (" ++ toString n ++ ")"],
        result := some r } := by
  unfold check
  rw [if_pos h]

/-- Witness for C1 at the spec's own scenario `x = -1`, `n = 10`. -/
theorem bounds_check_violation_witness :
    ((-1 : Int) < 0 ∨ (-1 : Int) ≥ 10) ∧
    check "idx " (-1) 10 (0 : Int) =
      { diagnostics := ["idx " ++ toString (-1 : Int) ++ " out of bound ("
          ++ toString (10 : Int) ++ ")"],
        result := some 0 } :=
  ⟨Or.inl (by decide), bounds_check_violation "idx " (-1) 10 0 (Or.inl (by decide))⟩

/-- Claim C2: with the switch enabled, whenever `0 ≤ x < n` the Index Bounds
Check prints nothing and does not redirect control flow. -/
theorem bounds_check_pass {α : Type} (msg : String) (x n : Int) (r : α)
    (h0 : 0 ≤ x) (h1 : x < n) :
    check msg x n r = { diagnostics := [], result := none } := by
  unfold check
  rw [if_neg (by omega)]

/-- Witness for C2 at `x = 3`, `n = 10`. -/
theorem bounds_check_pass_witness :
    (0 : Int) ≤ 3 ∧ (3 : Int) < 10 ∧
    check "idx " 3 10 (0 : Int) = { diagnostics := [], result := none } :=
  ⟨by decide, by decide, bounds_check_pass "idx " 3 10 0 (by decide) (by decide)⟩

/-- Claim C4: with the switch disabled, both checks are complete no-ops for
every input: no diagnostic, no control-flow redirection, and the outcome is
the same constant whatever the arguments are. -/
theorem disabled_noop {α : Type} (msg : String) (x n p : Int) (r : α) (img : Img) :
    check_disabled msg x n r = { diagnostics := [], result := none } ∧
    check_img_ptr_disabled msg p r img = { diagnostics := [], result := none } :=
  ⟨rfl, rfl⟩

/-- Claim C3: with the switch enabled, the Pointer Bounds Check accepts
exactly the inclusive span `[img.base, lastAddr img]`: it early-returns the
sentinel, and prints a diagnostic, if and only if `p < img.base` or
`p > lastAddr img`.  In particular for `ni=4, nj=3, si=3, sj=1, base=B`,
the pointers `B` and `B+11` pass while `B+12` fails with one diagnostic
line and a sentinel return. -/
theorem img_ptr_span (msg : String) (p r B : Int) (img : Img) :
    ((check_img_ptr msg p r img).result = some r ↔ p < img.base ∨ p > lastAddr img) ∧
    ((check_img_ptr msg p r img).diagnostics ≠ [] ↔ p < img.base ∨ p > lastAddr img) ∧
    check_img_ptr msg B r { base := B, ni := 4, nj := 3, si := 3, sj := 1 } =
      { diagnostics := [], result := none } ∧
    check_img_ptr msg (B + 11) r { base := B, ni := 4, nj := 3, si := 3, sj := 1 } =
      { diagnostics := [], result := none } ∧
    (check_img_ptr msg (B + 12) r
        { base := B, ni := 4, nj := 3, si := 3, sj := 1 }).result = some r ∧
    (check_img_ptr msg (B + 12) r
        { base := B, ni := 4, nj := 3, si := 3, sj := 1 }).diagnostics.length = 1 := by
  unfold check_img_ptr lastAddr
  refine ⟨?_, ?_, ?_, ?_, ?_, ?_⟩
  · by_cases h : p < img.base ∨ p > img.base + (img.ni - 1) * img.si + (img.nj - 1) * img.sj <;>
      simp [h]
  · by_cases h : p < img.base ∨ p > img.base + (img.ni - 1) * img.si + (img.nj - 1) * img.sj <;>
      simp [h]
  · rw [if_neg (by simp; omega)]
  · rw [if_neg (by simp; omega)]
  · rw [if_pos (by simp; omega)]
  · rw [if_pos (by simp; omega)]
    rfl

/-- Claim C5 counterexample: the claim says that for `ni = 0` or `nj = 0`
every pointer fails the enabled Pointer Bounds Check, `base` included.
But for `base = 0, ni = 0, nj = 3, si = 1, sj = 1` the computed last
address is `0 + (0-1)*1 + (3-1)*1 = 1 ≥ base`, so `p = base = 0` passes
with no diagnostic and no sentinel return. -/
theorem empty_buffer_cex :
    ({ base := 0, ni := 0, nj := 3, si := 1, sj := 1 } : Img).ni = 0 ∧
    check_img_ptr "img " 0 (7 : Int) { base := 0, ni := 0, nj := 3, si := 1, sj := 1 } =
      { diagnostics := [], result := none } := by
  constructor
  · rfl
  · decide

/-- Claim C5 (amended): a zero-extent descriptor (`ni = 0` or `nj = 0`)
rejects every pointer only when its computed last-element address actually
lies below `base`, i.e. `lastAddr img < img.base`; under that condition
every `p` — `img.base` included — fails with one diagnostic line and a
sentinel return. -/
theorem empty_buffer_reject {α : Type} (msg : String) (p : Int) (r : α) (img : Img)
    (hempty : img.ni = 0 ∨ img.nj = 0) (hlast : lastAddr img < img.base) :
    (check_img_ptr msg p r img).result = some r ∧
    (check_img_ptr msg p r img).diagnostics.length = 1 := by
  have hcond : p < img.base ∨ p > lastAddr img := by
    rcases lt_or_le p img.base with h | h
    · exact Or.inl h
    · exact Or.inr (lt_of_lt_of_le hlast h)
  unfold check_img_ptr
  rw [if_pos hcond]
  exact ⟨rfl, rfl⟩

/-- Witness for the amended C5 at `base = 0, ni = 0, nj = 0, si = 1, sj = 1`
(last address `-2 < 0`) and `p = 0 = base`. -/
theorem empty_buffer_reject_witness :
    (({ base := 0, ni := 0, nj := 0, si := 1, sj := 1 } : Img).ni = 0 ∨
      ({ base := 0, ni := 0, nj := 0, si := 1, sj := 1 } : Img).nj = 0) ∧
    lastAddr { base := 0, ni := 0, nj := 0, si := 1, sj := 1 } <
      ({ base := 0, ni := 0, nj := 0, si := 1, sj := 1 } : Img).base ∧
    (check_img_ptr "img " 0 (7 : Int)
        { base := 0, ni := 0, nj := 0, si := 1, sj := 1 }).result = some 7 ∧
    (check_img_ptr "img " 0 (7 : Int)
        { base := 0, ni := 0, nj := 0, si := 1, sj := 1 }).diagnostics.length = 1 :=
  ⟨Or.inl rfl, by decide,
    empty_buffer_reject "img " 0 7 { base := 0, ni := 0, nj := 0, si := 1, sj := 1 }
      (Or.inl rfl) (by decide)⟩

/-- Claim C6: for a descriptor with non-negative strides and positive
extents, every actual element address `base + i*si + j*sj` (with
`0 ≤ i < ni`, `0 ≤ j < nj`) lies in the accepted span, so the enabled
Pointer Bounds Check passes it without any diagnostic. -/
theorem span_sound {α : Type} (msg : String) (r : α) (i j : Int) (img : Img)
    (hsi : 0 ≤ img.si) (hsj : 0 ≤ img.sj)
    (hni : 1 ≤ img.ni) (hnj : 1 ≤ img.nj)
    (hi0 : 0 ≤ i) (hi : i < img.ni) (hj0 : 0 ≤ j) (hj : j < img.nj) :
    check_img_ptr msg (img.base + i * img.si + j * img.sj) r img =
      { diagnostics := [], result := none } := by
  have h1 : 0 ≤ i * img.si := mul_nonneg hi0 hsi
  have h2 : 0 ≤ j * img.sj := mul_nonneg hj0 hsj
  have h3 : i * img.si ≤ (img.ni - 1) * img.si :=
    mul_le_mul_of_nonneg_right (by omega) hsi
  have h4 : j * img.sj ≤ (img.nj - 1) * img.sj :=
    mul_le_mul_of_nonneg_right (by omega) hsj
  have hcond : ¬(img.base + i * img.si + j * img.sj < img.base ∨
      img.base + i * img.si + j * img.sj > lastAddr img) := by
    push_neg
    refine ⟨by linarith, ?_⟩
    unfold lastAddr
    linarith
  unfold check_img_ptr
  rw [if_neg hcond]

/-- Witness for C6 at `ni=4, nj=3, si=3, sj=1, base=0`, element `(i,j)=(2,1)`. -/
theorem span_sound_witness :
    (0 : Int) ≤ 3 ∧ (0 : Int) ≤ 1 ∧ (1 : Int) ≤ 4 ∧ (1 : Int) ≤ 3 ∧
    (0 : Int) ≤ 2 ∧ (2 : Int) < 4 ∧ (0 : Int) ≤ 1 ∧ (1 : Int) < 3 ∧
    check_img_ptr "img " ((0 : Int) + 2 * 3 + 1 * 1) (7 : Int)
        { base := 0, ni := 4, nj := 3, si := 3, sj := 1 } =
      { diagnostics := [], result := none } :=
  ⟨by decide, by decide, by decide, by decide, by decide, by decide, by decide, by decide,
    span_sound "img " 7 2 1 { base := 0, ni := 4, nj := 3, si := 3, sj := 1 }
      (by decide) (by decide) (by decide) (by decide)
      (by decide) (by decide) (by decide) (by decide)⟩

/-- Claim C7: the enabled Pointer Bounds Check validates containment only,
not stride alignment: for `base = 0, ni = 2, nj = 2, si = 4, sj = 2` the
pointer `p = 1` lies inside the span `[0, 6]` and passes the check, yet it
equals no element address `base + i*si + j*sj` with `i < ni`, `j < nj`
(all element addresses are even). -/
theorem span_not_aligned :
    check_img_ptr "img " 1 (7 : Int) { base := 0, ni := 2, nj := 2, si := 4, sj := 2 } =
      { diagnostics := [], result := none } ∧
    ({ base := 0, ni := 2, nj := 2, si := 4, sj := 2 } : Img).base ≤ 1 ∧
    (1 : Int) ≤ lastAddr { base := 0, ni := 2, nj := 2, si := 4, sj := 2 } ∧
    ∀ (i : Fin 2) (j : Fin 2),
      ({ base := 0, ni := 2, nj := 2, si := 4, sj := 2 } : Img).base +
          (i.val : Int) * ({ base := 0, ni := 2, nj := 2, si := 4, sj := 2 } : Img).si +
          (j.val : Int) * ({ base := 0, ni := 2, nj := 2, si := 4, sj := 2 } : Img).sj ≠ 1 := by
  refine ⟨by decide, by decide, by decide, ?_⟩
  decide

/-- Claim C8: each check is stateless across invocations: running it twice
with identical inputs gives the identical pass/fail result both times, the
output stream grows by the same diagnostic block on each invocation (no
suppression or deduplication), and that block has exactly one line on a
failing input and none on a passing one. -/
theorem checks_idempotent {α : Type} (msg : String) (x n p : Int) (r : α)
    (img : Img) (log : List String) :
    ((invoke log (check msg x n r)).2 =
      (invoke (invoke log (check msg x n r)).1 (check msg x n r)).2) ∧
    ((invoke (invoke log (check msg x n r)).1 (check msg x n r)).1 =
      log ++ (check msg x n r).diagnostics ++ (check msg x n r).diagnostics) ∧
    ((check msg x n r).diagnostics.length = if x < 0 ∨ x ≥ n then 1 else 0) ∧
    ((invoke log (check_img_ptr msg p r img)).2 =
      (invoke (invoke log (check_img_ptr msg p r img)).1 (check_img_ptr msg p r img)).2) ∧
    ((invoke (invoke log (check_img_ptr msg p r img)).1 (check_img_ptr msg p r img)).1 =
      log ++ (check_img_ptr msg p r img).diagnostics ++ (check_img_ptr msg p r img).diagnostics) ∧
    ((check_img_ptr msg p r img).diagnostics.length =
      if p < img.base ∨ p > lastAddr img then 1 else 0) := by
  refine ⟨rfl, rfl, ?_, rfl, rfl, ?_⟩
  · unfold check
    by_cases h : x < 0 ∨ x ≥ n <;> simp [h]
  · unfold check_img_ptr
    by_cases h : p < img.base ∨ p > lastAddr img <;> simp [h]

/-- Claim C9: the build switch is the compile-time constant `DEBUG`, shipped
as `0` (disabled), so by default both checks compile to no-ops; and the
dispatch recognizes exactly two behaviors — every switch value acts like
either `0` (disabled) or `1` (enabled). -/
theorem debug_switch_default {α : Type} (msg : String) (x n p : Int) (r : α)
    (img : Img) :
    DEBUG = 0 ∧
    check_dispatch DEBUG msg x n r = { diagnostics := [], result := none } ∧
    check_img_ptr_dispatch DEBUG msg p r img = { diagnostics := [], result := none } ∧
    (∀ d : Nat, check_dispatch d msg x n r = check_dispatch (min d 1) msg x n r ∧
      check_img_ptr_dispatch d msg p r img =
        check_img_ptr_dispatch (min d 1) msg p r img) := by
  refine ⟨rfl, rfl, rfl, ?_⟩
  intro d
  cases d with
  | zero => exact ⟨rfl, rfl⟩
  | succ k =>
    constructor
    · unfold check_dispatch
      rw [if_pos (Nat.succ_ne_zero k), if_pos (by omega)]
    · unfold check_img_ptr_dispatch
      rw [if_pos (Nat.succ_ne_zero k), if_pos (by omega)]

/-- Claim C10: the pass/fail branch of each enabled check is independent of
the label and the sentinel: two invocations agreeing on `(x, n)` (for
`check`), or on `p` and the descriptor fields (for `check_img_ptr`), but
with arbitrary labels and sentinels of arbitrary types, both pass or both
fail, and they print the same number of diagnostic lines. -/
theorem branch_ignores_label_sentinel {α β : Type} (msg msg2 : String)
    (x n p : Int) (r : α) (r2 : β) (img : Img) :
    ((check msg x n r).result.isSome = (check msg2 x n r2).result.isSome) ∧
    ((check msg x n r).diagnostics.length = (check msg2 x n r2).diagnostics.length) ∧
    ((check_img_ptr msg p r img).result.isSome =
      (check_img_ptr msg2 p r2 img).result.isSome) ∧
    ((check_img_ptr msg p r img).diagnostics.length =
      (check_img_ptr msg2 p r2 img).diagnostics.length) := by
  unfold check check_img_ptr
  by_cases h : x < 0 ∨ x ≥ n <;>
    by_cases h2 : p < img.base ∨ p > lastAddr img <;>
    simp [h, h2]
